import Mathlib

/-!
Verification of the platform-abstraction layer in `src/arch.cc` (vsearch).

The source file is a thin shim over the operating system.  We embed it
shallowly: every OS primitive the shim calls (posix_memalign, realloc,
sysconf, getrusage, open, lseek, ftello, ...) is a field of an explicit
environment record, and each `arch.cc` function becomes a pure Lean function
of that environment.  A call to the external fatal-error reporter
(`fatal(msg)`, which never returns) is modelled by an explicit `fatal msg`
result constructor, so "terminates the process" is an observable outcome.

Machine-integer conversions are explicit: a C `uint64_t` return value is a
`Nat` obtained by reducing the mathematical integer modulo 2^64, mirroring
the two's-complement conversion the C code performs implicitly.
-/

/-- Conversion of a signed integer value to C `uint64_t` (two's complement,
reduction modulo 2^64). -/
def uint64Of (i : Int) : Nat := (i % ((2 : Int) ^ 64)).toNat

/-- Conversion of a signed integer value to C `unsigned int` (32 bits). -/
def uint32Of (i : Int) : Nat := (i % ((2 : Int) ^ 32)).toNat

/-! ## Allocator (src/arch.cc lines 67, 217-271)

`const int memalignment = 16;`

The POSIX build is modelled: `xmalloc` calls `posix_memalign`, `xrealloc`
calls plain `realloc`, `xfree` calls `free`.  Addresses are `Nat`s, with `0`
playing the role of the null pointer.  A heap block is its size together
with its byte contents; `realloc` is an environment operation that receives
the old block (the real allocator knows it from its internal metadata) and
returns the new address and new block, or `none` for a NULL return. -/

/-- A heap block: its size in bytes and its contents (byte at each offset). -/
structure Block where
  bsize : Nat
  byte : Nat → Nat

/-- The OS-facing allocation primitives, as an explicit environment.
`posixMemalign align size` is `some addr` when `posix_memalign` succeeds and
`none` when it fails (in which case the C wrapper's `t` stays NULL).
`reallocSys ptr oldBlock newSize` is `some (addr, newBlock)` for a successful
`realloc` and `none` for a NULL return. -/
structure MemEnv where
  posixMemalign : Nat → Nat → Option Nat
  reallocSys : Nat → Block → Nat → Option (Nat × Block)

def memalignment : Nat := 16

/-- Result of `xmalloc`: the returned pointer, or process termination via
`fatal`. -/
inductive AllocResult where
  | fatal (msg : String)
  | ok (addr : Nat)
deriving DecidableEq

/-- Result of `xrealloc`: the returned pointer together with the reallocated
block, or process termination via `fatal`. -/
inductive ReallocResult where
  | fatal (msg : String)
  | ok (addr : Nat) (blk : Block)

/-- Result of `xfree`: the pointer released through `free`, or process
termination via `fatal`. -/
inductive FreeResult where
  | fatal (msg : String)
  | released (ptr : Nat)
deriving DecidableEq

/-- `xmalloc` (src/arch.cc lines 217-237): size zero is replaced by one,
`posix_memalign(&t, memalignment, size)` is called (failure leaves `t`
NULL), and a NULL `t` triggers `fatal`. -/
def xmalloc (env : MemEnv) (size : Nat) : AllocResult :=
  let sz := if size = 0 then 1 else size
  let t : Nat := (env.posixMemalign memalignment sz).getD 0
  if t = 0 then AllocResult.fatal "Unable to allocate enough memory."
  else AllocResult.ok t

/-- `xrealloc` (src/arch.cc lines 239-255): size zero is replaced by one,
`realloc(ptr, size)` is called, and a NULL result triggers `fatal`. -/
def xrealloc (env : MemEnv) (ptr : Nat) (old : Block) (size : Nat) :
    ReallocResult :=
  let sz := if size = 0 then 1 else size
  match env.reallocSys ptr old sz with
  | none => ReallocResult.fatal "Unable to reallocate enough memory."
  | some (t, blk) =>
      if t = 0 then ReallocResult.fatal "Unable to reallocate enough memory."
      else ReallocResult.ok t blk

/-- `xfree` (src/arch.cc lines 257-271): a non-null pointer is passed to
`free`, a null pointer triggers `fatal`. -/
def xfree (ptr : Nat) : FreeResult :=
  if ptr ≠ 0 then FreeResult.released ptr
  else FreeResult.fatal "Trying to free a null pointer"

/-! ## Entropy source (src/arch.cc lines 169-215)

`std::mt19937` is the standard Mersenne twister
`mersenne_twister_engine<uint32_t, 32, 624, 397, 31, 0x9908b0df, 11,
0xffffffff, 7, 0x9d2c5680, 15, 0xefc60000, 18, 1812433253>`; we implement
its seeding, twist and tempering directly.  All 32-bit words are `Nat`s
kept below 2^32. -/

/-- Mersenne twister state: the 624 32-bit words and the output index.
An index of 624 means the next output must first twist the state. -/
structure MTState where
  words : List Nat
  idx : Nat

/-- Remaining iterations of the mt19937 seeding recurrence
`x_i = (1812433253 * (x_(i-1) xor (x_(i-1) >> 30)) + i) mod 2^32`. -/
def mtInitAux : Nat → Nat → Nat → List Nat
  | _, _, 0 => []
  | prev, i, k + 1 =>
      let x := (1812433253 * (prev ^^^ (prev >>> 30)) + i) % 2 ^ 32
      x :: mtInitAux x (i + 1) k

/-- `std::mt19937 generator(seed)`: state seeding per the C++ standard. -/
def mtInit (seed : Nat) : MTState :=
  let s0 := seed % 2 ^ 32
  ⟨s0 :: mtInitAux s0 1 623, 624⟩

/-- One in-place step of the mt19937 twist at position `i`. -/
def mtTwistStep (s : List Nat) (i : Nat) : List Nat :=
  let y := ((s.getD i 0) &&& 0x80000000) ||| ((s.getD ((i + 1) % 624) 0) &&& 0x7fffffff)
  let v := (s.getD ((i + 397) % 624) 0) ^^^ (y >>> 1) ^^^
      (if y % 2 = 1 then 0x9908b0df else 0)
  s.set i v

/-- The full mt19937 twist: positions 0..623 updated sequentially in place
(later positions read entries already rewritten, as in the reference
algorithm). -/
def mtTwist (s : List Nat) : List Nat :=
  (List.range 624).foldl mtTwistStep s

/-- mt19937 output tempering. -/
def mtTemper (w : Nat) : Nat :=
  let y := w ^^^ (w >>> 11)
  let y := y ^^^ ((y <<< 7) &&& 0x9d2c5680)
  let y := y ^^^ ((y <<< 15) &&& 0xefc60000)
  (y ^^^ (y >>> 18)) % 2 ^ 32

/-- One 32-bit engine output: twist when the index is exhausted, then
temper the word at the current index. -/
def mtNext (g : MTState) : Nat × MTState :=
  if g.idx ≥ 624 then
    let w := mtTwist g.words
    (mtTemper (w.getD 0 0), ⟨w, 1⟩)
  else
    (mtTemper (g.words.getD g.idx 0), ⟨g.words, g.idx + 1⟩)

/-- `std::uniform_int_distribution<uint64_t>` over the full 64-bit range fed
by a 32-bit engine: two consecutive engine outputs are combined as
`hi * 2^32 + lo` (the power-of-two range needs no rejection). -/
def draw64 (g : MTState) : Nat × MTState :=
  let hi := mtNext g
  let lo := mtNext hi.2
  (hi.1 * 2 ^ 32 + lo.1, lo.2)

/-- The nondeterministic inputs the POSIX branch of `arch_srandom` can read
when the configured seed is zero: the value `std::random_device` yields, and
whether `/dev/urandom` opened successfully plus the word read from it. -/
structure EntropyEnv where
  randomDeviceValue : Nat
  urandomGood : Bool
  urandomValue : Nat
deriving DecidableEq

/-- The process-wide draw state: the `static std::mt19937 generator(42)`
local to `arch_random`, which does not exist until the first call
(`none`). -/
def ProcessState : Type := Option MTState

/-- The state of a freshly started process: `arch_random`'s static
generator is not constructed yet. -/
def initialProcessState : ProcessState := none

/-- The seed value `arch_srandom` computes (src/arch.cc lines 172-196):
`opt_randseed` truncated to `unsigned int`; when that is zero, the value of
`std::random_device`, overwritten by a word read from `/dev/urandom`
whenever that stream opens successfully. -/
def srandomLocalSeed (env : EntropyEnv) (optRandseed : Int) : Nat :=
  let seed := uint32Of optRandseed
  if seed = 0 then
    if env.urandomGood then env.urandomValue % 2 ^ 32
    else env.randomDeviceValue % 2 ^ 32
  else seed

/-- `arch_srandom` (src/arch.cc lines 169-205), POSIX branch: it computes a
seed and constructs a local `std::mt19937 generator` from it (through a
`std::seed_seq` in the zero-seed branch), but that generator is a local
variable destroyed when the function returns.  The static generator inside
`arch_random` is never touched, so the process draw state is returned
unchanged. -/
def arch_srandom (env : EntropyEnv) (optRandseed : Int) (st : ProcessState) :
    ProcessState :=
  let _localGenerator := mtInit (srandomLocalSeed env optRandseed)
  st

/-- `arch_random` (src/arch.cc lines 207-215): on first call the static
`std::mt19937 generator(42)` is constructed; each call then draws one
`uniform_int_distribution<uint64_t>` value from it. -/
def arch_random (st : ProcessState) : Nat × ProcessState :=
  let g := match st with
    | none => mtInit 42
    | some g => g
  let r := draw64 g
  (r.1, some r.2)

/-- The list of values produced by `n` successive `arch_random` calls. -/
def drawSeq : ProcessState → Nat → List Nat
  | _, 0 => []
  | st, n + 1 =>
      let r := arch_random st
      r.1 :: drawSeq r.2 n

/-- One whole process run: start fresh, call `arch_srandom` once with the
configured seed and the run's entropy environment, then record `n` draws. -/
def processRun (env : EntropyEnv) (optRandseed : Int) (n : Nat) : List Nat :=
  drawSeq (arch_srandom env optRandseed initialProcessState) n

/-! ## Resource monitor (src/arch.cc lines 69-142)

The POSIX/Linux branch is modelled.  The environment holds the values the
OS queries return in this process run: `sysconf` results are C `long`s
(`Int`, `-1` signalling failure) and `ru_maxrss` is a `long`. -/

/-- Per-run results of the OS resource queries. -/
structure SysEnv where
  physPages : Int
  pageSize : Int
  nprocsOnline : Int
  ruMaxrss : Int
deriving DecidableEq

/-- `arch_get_memtotal` (src/arch.cc lines 113-121, the
`_SC_PHYS_PAGES`/`_SC_PAGESIZE` branch): `fatal` when either `sysconf`
query returns -1, otherwise the product `pagesize * phys_pages` converted
to `uint64_t`. -/
def arch_get_memtotal (env : SysEnv) : Except String Nat :=
  if env.physPages = -1 ∨ env.pageSize = -1 then
    Except.error "Cannot determine amount of RAM"
  else
    Except.ok (uint64Of (env.pageSize * env.physPages))

/-- `arch_get_cores` (src/arch.cc lines 133-142, POSIX branch): the result
of `sysconf(_SC_NPROCESSORS_ONLN)`, returned unchanged as a `long`. -/
def arch_get_cores (env : SysEnv) : Int := env.nprocsOnline

/-- `arch_get_memused` (src/arch.cc lines 87-89, Linux branch):
`ru_maxrss` is in kilobytes, multiplied by 1024 and converted to
`uint64_t`. -/
def arch_get_memused_linux (env : SysEnv) : Nat :=
  uint64Of (env.ruMaxrss * 1024)

/-- `arch_get_memused` (src/arch.cc lines 84-86, Apple branch):
`ru_maxrss` is already in bytes and is converted to `uint64_t`
unchanged. -/
def arch_get_memused_apple (env : SysEnv) : Nat :=
  uint64Of env.ruMaxrss

/-! ## File-primitive adapter (src/arch.cc lines 273-329)

POSIX branch.  Each wrapper is a direct pass-through to one OS call; the
environment holds the OS call results.  `open` flags and mode bits use the
Linux numeric values.  The `xstat_t` out-parameter of `stat`/`fstat` is
filled by the OS call itself and forwarded untouched by the wrapper, so
only the integer status is modelled.  Results are wrapped in
`Except String` so that "terminated via the fatal-error reporter"
(`Except.error`) is expressible and its absence provable. -/

def O_RDONLY : Nat := 0
def O_WRONLY : Nat := 1
def O_CREAT : Nat := 64
def O_TRUNC : Nat := 512
def S_IRUSR : Nat := 256
def S_IWUSR : Nat := 128

/-- Results of the underlying file-related OS calls for this run:
`openSys path flags mode` is the file descriptor `open` returns (`-1` on
failure); `fstatSys`/`statSys` are the `fstat`/`stat` statuses; `lseekSys`
and `ftelloSys` are the returned `off_t` values (`-1` on failure). -/
structure FileEnv where
  openSys : String → Nat → Nat → Int
  fstatSys : Int → Int
  statSys : String → Int
  lseekSys : Int → Nat → Nat → Int
  ftelloSys : Nat → Int

/-- `xopen_read` (src/arch.cc lines 309-316): `open(path, O_RDONLY)`
(two-argument form; the unused mode is 0 here). -/
def xopen_read (env : FileEnv) (path : String) : Except String Int :=
  Except.ok (env.openSys path O_RDONLY 0)

/-- `xopen_write` (src/arch.cc lines 318-329):
`open(path, O_WRONLY | O_CREAT | O_TRUNC, S_IRUSR | S_IWUSR)`. -/
def xopen_write (env : FileEnv) (path : String) : Except String Int :=
  Except.ok (env.openSys path (O_WRONLY ||| (O_CREAT ||| O_TRUNC))
    (S_IRUSR ||| S_IWUSR))

/-- `xfstat` (src/arch.cc lines 273-280): `fstat(fd, buf)` status. -/
def xfstat (env : FileEnv) (fd : Int) : Except String Int :=
  Except.ok (env.fstatSys fd)

/-- `xstat` (src/arch.cc lines 282-289): `stat(path, buf)` status. -/
def xstat (env : FileEnv) (path : String) : Except String Int :=
  Except.ok (env.statSys path)

/-- `xlseek` (src/arch.cc lines 291-298): `lseek(fd, offset, whence)`,
whose signed `off_t` result is converted to the declared `uint64_t`
return type. -/
def xlseek (env : FileEnv) (fd : Int) (offset : Nat) (whence : Nat) :
    Except String Nat :=
  Except.ok (uint64Of (env.lseekSys fd offset whence))

/-- `xftello` (src/arch.cc lines 300-307): `ftello(stream)`, whose signed
`off_t` result is converted to the declared `uint64_t` return type.
Streams are identified by a numeric handle. -/
def xftello (env : FileEnv) (stream : Nat) : Except String Nat :=
  Except.ok (uint64Of (env.ftelloSys stream))

/-! ## Concrete environments used to evaluate the model -/

/-- A small concrete heap block. -/
def blk0 : Block := ⟨4, fun _ => 7⟩

/-- The block a well-behaved `realloc` hands back for old block `b` and new
size `n`: the surviving bytes are copied, the rest is fresh. -/
def cblk (b : Block) (n : Nat) : Block :=
  ⟨n, fun i => if i < b.bsize then b.byte i else 0⟩

/-- An allocator environment where `posix_memalign` returns the (aligned,
non-null) address `3 * alignment` and `realloc` succeeds at address 16. -/
def memEnvA : MemEnv :=
  ⟨fun a _ => some (a * 3), fun _ b n => some (16, cblk b n)⟩

/-- An allocator environment where every allocation attempt fails. -/
def memEnvFail : MemEnv :=
  ⟨fun _ _ => none, fun _ _ _ => none⟩

/-- A POSIX-conformant allocator environment whose `realloc` returns the
8-byte-aligned address 8: POSIX guarantees contents preservation and
fundamental (not 16-byte) alignment for `realloc`, so this behavior is
within its contract. -/
def memEnvRealloc8 : MemEnv :=
  ⟨fun a _ => some (a * 3), fun _ b n => some (8, cblk b n)⟩

/-- A resource environment: 2097152 pages of 4096 bytes (8 GiB), 8 online
processors, `ru_maxrss` of 1000 kilobytes. -/
def sysEnvA : SysEnv := ⟨2097152, 4096, 8, 1000⟩

/-- A resource environment where both memory-size queries fail. -/
def sysEnvFail : SysEnv := ⟨-1, -1, 8, 1000⟩

/-- A resource environment where `sysconf(_SC_NPROCESSORS_ONLN)` fails
with -1. -/
def sysEnvNoCores : SysEnv := ⟨2097152, 4096, -1, 1000⟩

/-- A file environment where every underlying OS call fails with -1. -/
def fileEnvFail : FileEnv :=
  ⟨fun _ _ _ => -1, fun _ => -1, fun _ => -1, fun _ _ _ => -1, fun _ => -1⟩

/-! ## Theorems -/

/-- Claim C1: for every non-zero configured seed, two process runs — with
possibly different entropy environments — that call `arch_srandom` once
and then draw repeatedly from `arch_random` produce identical sequences of
values.  (In the code this holds because `arch_random` draws from a static
generator seeded with the constant 42, which `arch_srandom` never touches:
the sequence does not depend on the configured seed at all, so in
particular it is reproduced exactly when the seed is repeated.) -/
theorem arch_random_same_seed_deterministic (optRandseed : Int)
    (env1 env2 : EntropyEnv) (n : Nat) (_h : uint32Of optRandseed ≠ 0) :
    processRun env1 optRandseed n = processRun env2 optRandseed n := rfl

/-- Witness for C1: the spec scenario with seed 42 and three draws, under
two different entropy environments. -/
theorem arch_random_same_seed_deterministic_w :
    uint32Of 42 ≠ 0 ∧
    processRun ⟨123, true, 77⟩ 42 3 = processRun ⟨9, false, 0⟩ 42 3 :=
  ⟨by decide,
   arch_random_same_seed_deterministic 42 ⟨123, true, 77⟩ ⟨9, false, 0⟩ 3
     (by decide)⟩

/-- Claim C2 (amended): every pointer returned by `xmalloc` is a multiple
of the alignment constant 16, by the `posix_memalign` contract; a pointer
returned by `xrealloc` is a multiple of 16 only when the platform `realloc`
itself yields 16-aligned addresses — the wrapper adds no re-alignment. -/
theorem allocator_alignment (env : MemEnv) (sz p : Nat) (b : Block)
    (hma : ∀ a s q, env.posixMemalign a s = some q → q % a = 0) :
    (∀ a, xmalloc env sz = AllocResult.ok a → a % memalignment = 0)
  ∧ ((∀ q blk m r b2, env.reallocSys q blk m = some (r, b2) →
        r % memalignment = 0) →
      ∀ a b2, xrealloc env p b sz = ReallocResult.ok a b2 →
        a % memalignment = 0) := by
  constructor
  · intro a h
    unfold xmalloc at h
    cases hopt : env.posixMemalign memalignment (if sz = 0 then 1 else sz) with
    | none => simp [hopt] at h
    | some q =>
        simp only [hopt, Option.getD_some] at h
        split at h
        · exact absurd h (by simp)
        · cases h
          exact hma _ _ _ hopt
  · intro hra a b2 h
    unfold xrealloc at h
    cases hopt : env.reallocSys p b (if sz = 0 then 1 else sz) with
    | none => simp [hopt] at h
    | some tb =>
        simp only [hopt] at h
        split at h
        · exact absurd h (by simp)
        · cases h
          exact hra _ _ _ _ _ hopt

/-- Counterexample for C2: under a POSIX-conformant allocator whose
`realloc` hands back the 8-byte-aligned address 8 (POSIX promises only
fundamental alignment for `realloc`), `xrealloc` returns the address 8,
which is not a multiple of 16. -/
theorem xrealloc_alignment_cex :
    xrealloc memEnvRealloc8 48 blk0 24 = ReallocResult.ok 8 (cblk blk0 24)
  ∧ ¬ (8 % memalignment = 0) :=
  ⟨rfl, by decide⟩

/-- The environment of the counterexample honors the genuine POSIX
contracts: `posix_memalign` results are aligned and non-null, and
`realloc` preserves the surviving bytes. -/
theorem memEnvRealloc8_posix_conformant :
    (∀ a s q, memEnvRealloc8.posixMemalign a s = some q →
        q % a = 0 ∧ (a ≠ 0 → q ≠ 0))
  ∧ (∀ p b n r b2, memEnvRealloc8.reallocSys p b n = some (r, b2) →
        ∀ i, i < min b.bsize n → b2.byte i = b.byte i) := by
  constructor
  · intro a s q h
    cases h
    constructor
    · exact Nat.mul_mod_right a 3
    · intro ha
      simpa using ha
  · intro p b n r b2 h i hi
    cases h
    have hb : i < b.bsize := lt_of_lt_of_le hi (Nat.min_le_left _ _)
    simp [cblk, hb]

/-- Witness for C2 (amended): on the environment `memEnvA`, `xmalloc 5`
returns the address 48, a multiple of 16. -/
theorem allocator_alignment_w : (48 : Nat) % memalignment = 0 :=
  (allocator_alignment memEnvA 5 16 blk0
      (by
        intro a s q h
        cases h
        exact Nat.mul_mod_right a 3)).1 48 rfl

/-- Claim C3: `xmalloc` and `xrealloc` treat a requested size of zero as
size one, terminate through the fatal-error reporter when the underlying
allocation fails, and whenever they return, the returned pointer is
non-null. -/
theorem alloc_zero_fatal_nonnull (env : MemEnv) (sz p : Nat) (b : Block) :
    xmalloc env 0 = xmalloc env 1
  ∧ xrealloc env p b 0 = xrealloc env p b 1
  ∧ (env.posixMemalign memalignment (if sz = 0 then 1 else sz) = none →
      xmalloc env sz = AllocResult.fatal "Unable to allocate enough memory.")
  ∧ (env.reallocSys p b (if sz = 0 then 1 else sz) = none →
      xrealloc env p b sz =
        ReallocResult.fatal "Unable to reallocate enough memory.")
  ∧ (∀ a, xmalloc env sz = AllocResult.ok a → a ≠ 0)
  ∧ (∀ a b2, xrealloc env p b sz = ReallocResult.ok a b2 → a ≠ 0) := by
  refine ⟨rfl, rfl, ?_, ?_, ?_, ?_⟩
  · intro h
    unfold xmalloc
    simp [h]
  · intro h
    unfold xrealloc
    simp [h]
  · intro a h
    unfold xmalloc at h
    cases hopt : env.posixMemalign memalignment (if sz = 0 then 1 else sz) with
    | none => simp [hopt] at h
    | some q =>
        simp only [hopt, Option.getD_some] at h
        split at h
        · exact absurd h (by simp)
        · cases h
          assumption
  · intro a b2 h
    unfold xrealloc at h
    cases hopt : env.reallocSys p b (if sz = 0 then 1 else sz) with
    | none => simp [hopt] at h
    | some tb =>
        simp only [hopt] at h
        split at h
        · exact absurd h (by simp)
        · cases h
          assumption

/-- Witness for C3: concrete environments exercising all three parts. -/
theorem alloc_zero_fatal_nonnull_w :
    xmalloc memEnvA 0 = xmalloc memEnvA 1
  ∧ xmalloc memEnvFail 5 = AllocResult.fatal "Unable to allocate enough memory."
  ∧ (48 : Nat) ≠ 0 :=
  ⟨(alloc_zero_fatal_nonnull memEnvA 5 16 blk0).1,
   (alloc_zero_fatal_nonnull memEnvFail 5 16 blk0).2.2.1 rfl,
   (alloc_zero_fatal_nonnull memEnvA 0 16 blk0).2.2.2.2.1 48 rfl⟩

/-- Claim C4: `xfree` of the null pointer terminates through the
fatal-error reporter, and `xfree` of any non-null pointer releases it
through the platform deallocation path and returns. -/
theorem xfree_null_fatal (q : Nat) (hq : q ≠ 0) :
    xfree 0 = FreeResult.fatal "Trying to free a null pointer"
  ∧ xfree q = FreeResult.released q := by
  constructor
  · rfl
  · unfold xfree
    simp [hq]

/-- Witness for C4: freeing null is fatal, freeing the pointer 5 releases
it. -/
theorem xfree_null_fatal_w :
    xfree 0 = FreeResult.fatal "Trying to free a null pointer"
  ∧ xfree 5 = FreeResult.released 5 :=
  xfree_null_fatal 5 (by decide)

/-- Claim C5: whenever `xrealloc` returns, the new block agrees with the
old one on the first `min (old size) (new size)` bytes; in particular a
grow preserves every byte of the original allocation.  The hypothesis is
the POSIX `realloc` contract of the environment. -/
theorem xrealloc_preserves_min (env : MemEnv) (p : Nat) (old : Block)
    (n : Nat)
    (hpres : ∀ q b m r b2, env.reallocSys q b m = some (r, b2) →
        ∀ i, i < min b.bsize m → b2.byte i = b.byte i) :
    ∀ a b2, xrealloc env p old n = ReallocResult.ok a b2 →
      (∀ i, i < min old.bsize n → b2.byte i = old.byte i)
    ∧ (old.bsize ≤ n → ∀ i, i < old.bsize → b2.byte i = old.byte i) := by
  intro a b2 h
  unfold xrealloc at h
  cases hopt : env.reallocSys p old (if n = 0 then 1 else n) with
  | none => simp [hopt] at h
  | some tb =>
      simp only [hopt] at h
      split at h
      · exact absurd h (by simp)
      · cases h
        have hmain := hpres _ _ _ _ _ hopt
        have hn : n ≤ (if n = 0 then 1 else n) := by split <;> omega
        constructor
        · intro i hi
          exact hmain i (by
            rcases Nat.lt_min.mp hi with ⟨h1, h2⟩
            exact Nat.lt_min.mpr ⟨h1, by omega⟩)
        · intro hle i hi
          exact hmain i (Nat.lt_min.mpr ⟨hi, by omega⟩)

/-- Witness for C5: on the environment `memEnvA`, growing the 4-byte block
`blk0` to 8 bytes keeps byte 2 intact. -/
theorem xrealloc_preserves_min_w : (cblk blk0 8).byte 2 = blk0.byte 2 :=
  (xrealloc_preserves_min memEnvA 16 blk0 8
      (by
        intro q b m r b2 h i hi
        cases h
        have hb : i < b.bsize := lt_of_lt_of_le hi (Nat.min_le_left _ _)
        simp [cblk, hb])
      16 (cblk blk0 8) rfl).1 2 (by decide)

/-- Claim C6: `arch_get_memtotal` terminates through the fatal-error
reporter when either `sysconf` query returns -1; when both succeed it
returns `pagesize * phys_pages` as a `uint64_t`; that value is positive
whenever the OS reports positive page count and page size (with the product
within the 64-bit range); and repeated calls in one run agree. -/
theorem arch_get_memtotal_contract (env : SysEnv) :
    (env.physPages = -1 ∨ env.pageSize = -1 →
      arch_get_memtotal env = Except.error "Cannot determine amount of RAM")
  ∧ (env.physPages ≠ -1 → env.pageSize ≠ -1 →
      arch_get_memtotal env =
        Except.ok (uint64Of (env.pageSize * env.physPages)))
  ∧ (0 < env.physPages → 0 < env.pageSize →
      env.pageSize * env.physPages < 2 ^ 64 →
      ∀ r, arch_get_memtotal env = Except.ok r → 0 < r)
  ∧ (∀ r s, arch_get_memtotal env = Except.ok r →
      arch_get_memtotal env = Except.ok s → r = s) := by
  refine ⟨?_, ?_, ?_, ?_⟩
  · intro h
    unfold arch_get_memtotal
    simp [h]
  · intro h1 h2
    unfold arch_get_memtotal
    simp [h1, h2]
  · intro hp hs hb r hr
    have h1 : env.physPages ≠ -1 := by omega
    have h2 : env.pageSize ≠ -1 := by omega
    unfold arch_get_memtotal at hr
    simp [h1, h2] at hr
    have hpos : 0 < env.pageSize * env.physPages := mul_pos hs hp
    unfold uint64Of at hr
    omega
  · intro r s hr hs
    rw [hr] at hs
    cases hs
    rfl

/-- Witness for C6: an 8 GiB machine yields 8589934592 bytes; a machine
where a query fails makes the call fatal. -/
theorem arch_get_memtotal_contract_w :
    arch_get_memtotal sysEnvFail = Except.error "Cannot determine amount of RAM"
  ∧ arch_get_memtotal sysEnvA = Except.ok 8589934592
  ∧ 0 < (8589934592 : Nat) :=
  ⟨(arch_get_memtotal_contract sysEnvFail).1 (Or.inl rfl),
   (arch_get_memtotal_contract sysEnvA).2.1 (by decide) (by decide),
   (arch_get_memtotal_contract sysEnvA).2.2.1 (by decide) (by decide)
     (by decide) 8589934592 rfl⟩

/-- Claim C7: `arch_get_memused` normalizes peak resident memory to bytes:
the Linux branch multiplies the kilobyte `ru_maxrss` by 1024, the Apple
branch returns the byte `ru_maxrss` unchanged (for OS values in the
representable range). -/
theorem arch_get_memused_normalizes (env : SysEnv) (h0 : 0 ≤ env.ruMaxrss)
    (h1 : env.ruMaxrss * 1024 < 2 ^ 64) :
    (arch_get_memused_linux env : Int) = env.ruMaxrss * 1024
  ∧ (arch_get_memused_apple env : Int) = env.ruMaxrss := by
  unfold arch_get_memused_linux arch_get_memused_apple uint64Of
  constructor <;> omega

/-- Witness for C7: `ru_maxrss` of 1000 gives 1024000 bytes on the Linux
branch and 1000 bytes on the Apple branch. -/
theorem arch_get_memused_normalizes_w :
    (arch_get_memused_linux sysEnvA : Int) = 1024000
  ∧ (arch_get_memused_apple sysEnvA : Int) = 1000 :=
  arch_get_memused_normalizes sysEnvA (by decide) (by decide)

/-- Counterexample for C8: when `sysconf(_SC_NPROCESSORS_ONLN)` fails with
-1, `arch_get_cores` returns -1, which is not ≥ 1. -/
theorem arch_get_cores_cex :
    arch_get_cores sysEnvNoCores = -1
  ∧ ¬ (1 ≤ arch_get_cores sysEnvNoCores) :=
  ⟨rfl, by decide⟩

/-- Claim C8 (amended): `arch_get_cores` returns the result of
`sysconf(_SC_NPROCESSORS_ONLN)` unchanged; it is ≥ 1 exactly when the OS
query reports at least one online processor, but a query failure (-1) is
passed through to the caller. -/
theorem arch_get_cores_passthrough (env : SysEnv) :
    arch_get_cores env = env.nprocsOnline
  ∧ (1 ≤ env.nprocsOnline → 1 ≤ arch_get_cores env) :=
  ⟨rfl, fun h => h⟩

/-- Witness for C8 (amended): with 8 online processors the result is 8. -/
theorem arch_get_cores_passthrough_w :
    arch_get_cores sysEnvA = 8 ∧ 1 ≤ arch_get_cores sysEnvA :=
  ⟨(arch_get_cores_passthrough sysEnvA).1,
   (arch_get_cores_passthrough sysEnvA).2 (by decide)⟩

/-- Claim C9: every file-primitive wrapper passes the underlying OS result
through to the caller unchanged (modulo the declared return type) and never
terminates through the fatal-error reporter. -/
theorem file_primitives_passthrough (env : FileEnv) (path : String)
    (fd : Int) (off w s : Nat) :
    xopen_read env path = Except.ok (env.openSys path O_RDONLY 0)
  ∧ xopen_write env path =
      Except.ok (env.openSys path (O_WRONLY ||| (O_CREAT ||| O_TRUNC))
        (S_IRUSR ||| S_IWUSR))
  ∧ xfstat env fd = Except.ok (env.fstatSys fd)
  ∧ xstat env path = Except.ok (env.statSys path)
  ∧ xlseek env fd off w = Except.ok (uint64Of (env.lseekSys fd off w))
  ∧ xftello env s = Except.ok (uint64Of (env.ftelloSys s))
  ∧ (∀ m, xopen_read env path ≠ Except.error m)
  ∧ (∀ m, xopen_write env path ≠ Except.error m)
  ∧ (∀ m, xfstat env fd ≠ Except.error m)
  ∧ (∀ m, xstat env path ≠ Except.error m)
  ∧ (∀ m, xlseek env fd off w ≠ Except.error m)
  ∧ (∀ m, xftello env s ≠ Except.error m) := by
  refine ⟨rfl, rfl, rfl, rfl, rfl, rfl, ?_, ?_, ?_, ?_, ?_, ?_⟩ <;>
    intro m h <;>
    simp [xopen_read, xopen_write, xfstat, xstat, xlseek, xftello] at h

/-- Witness for C9: with every OS call failing, `xopen_read` hands the
invalid descriptor -1 back to the caller instead of aborting. -/
theorem file_primitives_passthrough_w :
    xopen_read fileEnvFail "data.fasta" = Except.ok (-1) :=
  (file_primitives_passthrough fileEnvFail "data.fasta" 3 0 0 0).1

/-- Claim C10: when the underlying seek or tell fails with the signed -1,
the `uint64_t`-typed wrappers `xlseek` and `xftello` deliver 2^64 - 1 to
the caller, and every value they deliver is non-negative, so a negativity
test cannot detect the failure. -/
theorem xlseek_xftello_failure_wraps (env : FileEnv) (fd : Int)
    (off w s : Nat) (h1 : env.lseekSys fd off w = -1)
    (h2 : env.ftelloSys s = -1) :
    xlseek env fd off w = Except.ok (2 ^ 64 - 1)
  ∧ xftello env s = Except.ok (2 ^ 64 - 1)
  ∧ (∀ v, xlseek env fd off w = Except.ok v → 0 ≤ (v : Int))
  ∧ (∀ v, xftello env s = Except.ok v → 0 ≤ (v : Int)) := by
  refine ⟨?_, ?_, ?_, ?_⟩
  · unfold xlseek
    rw [h1]
    rfl
  · unfold xftello
    rw [h2]
    rfl
  · intro v _
    exact Int.natCast_nonneg v
  · intro v _
    exact Int.natCast_nonneg v

/-- Witness for C10: with failing OS calls, both wrappers deliver
18446744073709551615. -/
theorem xlseek_xftello_failure_wraps_w :
    xlseek fileEnvFail 3 0 0 = Except.ok (2 ^ 64 - 1)
  ∧ xftello fileEnvFail 0 = Except.ok (2 ^ 64 - 1) :=
  ⟨(xlseek_xftello_failure_wraps fileEnvFail 3 0 0 0 rfl rfl).1,
   (xlseek_xftello_failure_wraps fileEnvFail 3 0 0 0 rfl rfl).2.1⟩
